import Mathlib

/-!
Shallow embedding of the PDF table-detection and cell-reconstruction engine
(`src/js/utils/tableDetector.js` and the Excel-conversion slice of the
monolithic module in `src/unnamed/part_005`, whose detector functions are
line-for-line copies of `tableDetector.js`).

Modelling conventions:
* JavaScript numbers are modelled exactly: glyph coordinates are integers
  (the extractor applies `Math.round`), derived averages / densities are `ℚ`.
* `Math.round` is `jsRound` (round half toward +infinity, `⌊q + 1/2⌋`),
  which agrees with JS `Math.round` on all rationals.
* `Array.prototype.sort` with a numeric comparator is a stable sort; the
  stable sorted permutation is unique, so any stable sort is extensionally
  the same function.  We use a structural insertion sort `sortByLe`
  (stable: an element is inserted before the first element it is `le` to,
  hence ties keep their original relative order).
* `String.prototype.trim` is `jsTrim` (drop whitespace from both ends),
  `substring(0, n)` is `jsSubstring`, template literals are string appends,
  and `${n}` renders through `Nat.repr`.  `Nat.repr` agrees with JS
  `String(n)` exactly for every n below 10^21 (above that JS switches to
  exponential notation); the source's page counter and sheet count stay
  far below that threshold (a JS `pageNum++` loop cannot pass 2^53), and
  the sheet-name theorem restricts its quantifiers to that range.
-/

/-- One positioned text run, as produced by `extractTextItems` /
`extractTextItemsFromPDF` (coordinates already integer-rounded). -/
structure TextItem where
  text : String
  x : ℤ
  y : ℤ
  width : ℤ
  height : ℤ
  font : String
deriving DecidableEq

/-- A row is the list of text items judged to share a horizontal band. -/
abbrev Row := List TextItem

/-- JS `Math.round`: round half toward positive infinity. -/
def jsRound (q : ℚ) : ℤ := ⌊q + 1/2⌋

/-- Average of a list of integers, as a rational
(`cluster.reduce((sum, val) => sum + val, 0) / cluster.length`). -/
def listAvg (l : List ℤ) : ℚ := (l.sum : ℚ) / (l.length : ℚ)

/-- Insert `a` before the first element `b` of `l` with `le a b`. -/
def insertByLe {α : Type} (le : α → α → Bool) (a : α) : List α → List α
  | [] => [a]
  | b :: bs => if le a b then a :: b :: bs else b :: insertByLe le a bs

/-- Stable insertion sort: model of JS `Array.prototype.sort` with a
comparator whose non-strict order is `le`. -/
def sortByLe {α : Type} (le : α → α → Bool) : List α → List α
  | [] => []
  | a :: as => insertByLe le a (sortByLe le as)

/-- Model of `[...xs].sort((a, b) => a - b)` on integers. -/
def sortInt (l : List ℤ) : List ℤ := sortByLe (fun a b => decide (a ≤ b)) l

/-- JS `String.prototype.trim` (ASCII whitespace suffices for this code). -/
def jsTrim (s : String) : String :=
  ((s.toList.dropWhile Char.isWhitespace).reverse.dropWhile Char.isWhitespace).reverse.asString

/-- JS `String.prototype.substring(0, n)` (all names built here are ASCII,
so code units and characters coincide). -/
def jsSubstring (s : String) (n : Nat) : String := (s.toList.take n).asString

/-- The `CONFIG.excel` configuration constants (`src/unnamed/part_005`,
lines 61-87), restricted to the constants the modelled core reads.
`0.6`, `0.7`, `0.5`, `0.9` are modelled as exact rationals. -/
structure ExcelConfig where
  rowThreshold : ℤ
  columnThreshold : ℤ
  minGridDensity : ℚ
  minColumnConsistency : ℚ
  minRows : Nat
  minCols : Nat
  mergedCellThreshold : ℚ
  maxSheetNameLength : Nat

/-- The concrete configuration object of the repository. -/
def CONFIG : ExcelConfig :=
  { rowThreshold := 5
    columnThreshold := 10
    minGridDensity := 6/10
    minColumnConsistency := 7/10
    minRows := 2
    minCols := 2
    mergedCellThreshold := 9/10
    maxSheetNameLength := 31 }

/-- Loop body of `groupByY`: `currentRow` is the open row (never empty),
`currentY` its anchor (the first item placed in it). -/
def groupLoop (threshold : ℤ) : List TextItem → List TextItem → ℤ → List (List TextItem)
  | [], currentRow, _ => [currentRow]
  | item :: rest, currentRow, currentY =>
    if |item.y - currentY| ≤ threshold then
      groupLoop threshold rest (currentRow ++ [item]) currentY
    else
      currentRow :: groupLoop threshold rest [item] item.y

/-- `groupByY` (`tableDetector.js` lines 15-45): sort by Y descending
(stable), then walk grouping by proximity to the open row's anchor Y. -/
def groupByY (textItems : List TextItem) (threshold : ℤ) : List Row :=
  match sortByLe (fun a b => decide (b.y ≤ a.y)) textItems with
  | [] => []
  | first :: rest => groupLoop threshold rest [first] first.y

/-- `extractXPositions` (`tableDetector.js` lines 53-63): the set of
distinct item X origins across all rows, sorted ascending.  (`x` is already
an integer in the model, so `Math.round(item.x) = item.x`.) -/
def extractXPositions (rows : List Row) : List ℤ :=
  sortInt (((rows.map (fun row => row.map (fun item => item.x))).flatten).eraseDups)

/-- Loop body of `clusterXPositions`.  `currentCluster` is the open cluster
(never empty) and `currentX` is its first member: the source never updates
`currentX` when a value joins the cluster. -/
def clusterLoop (threshold : ℤ) : List ℤ → List ℤ → ℤ → List ℤ
  | [], currentCluster, _ => [jsRound (listAvg currentCluster)]
  | x :: xs, currentCluster, currentX =>
    if |x - currentX| ≤ threshold then
      clusterLoop threshold xs (currentCluster ++ [x]) currentX
    else
      jsRound (listAvg currentCluster) :: clusterLoop threshold xs [x] x

/-- `clusterXPositions` (`tableDetector.js` lines 72-102 =
`part_005` lines 1280-1308). -/
def clusterXPositions (xPositions : List ℤ) (threshold : ℤ) : List ℤ :=
  match sortInt xPositions with
  | [] => []
  | x :: rest => clusterLoop threshold rest [x] x

/-- Right edge of column `i`: the next boundary, or `boundary + 1000` for
the last column (the pattern repeated in density, consistency and cell
reconstruction). -/
def colEndAt (columns : List ℤ) (i : Nat) : ℤ :=
  if i < columns.length - 1 then columns.getD (i+1) 0 else columns.getD i 0 + 1000

/-- The membership test `item.x >= colStart && item.x < colEnd` shared by
`calculateGridDensity`, `measureColumnConsistency` and `reconstructCells`. -/
def inColRange (columns : List ℤ) (i : Nat) (item : TextItem) : Bool :=
  decide (columns.getD i 0 ≤ item.x) && decide (item.x < colEndAt columns i)

/-- `calculateGridDensity` (`tableDetector.js` lines 112-135): fraction of
(row, column) cells containing at least one item in the column's range. -/
def calculateGridDensity (rows : List Row) (columns : List ℤ) : ℚ :=
  if rows.length = 0 ∨ columns.length = 0 then 0
  else
    let totalCells : Nat := rows.length * columns.length
    let filledCells : Nat :=
      (rows.map (fun row =>
        (List.range columns.length).countP (fun i => row.any (inColRange columns i)))).sum
    if totalCells > 0 then (filledCells : ℚ) / (totalCells : ℚ) else 0

/-- `measureColumnConsistency` (`tableDetector.js` lines 144-171): fraction
of columns populated in at least half of the rows. -/
def measureColumnConsistency (rows : List Row) (columns : List ℤ) : ℚ :=
  if rows.length = 0 ∨ columns.length = 0 then 0
  else
    let consistentColumns : Nat :=
      (List.range columns.length).countP (fun i =>
        decide (((rows.countP (fun row => row.any (inColRange columns i))) : ℚ) ≥
          (rows.length : ℚ) * (1/2)))
    if columns.length > 0 then (consistentColumns : ℚ) / (columns.length : ℚ) else 0

/-- Result record of `validateTableGrid`.  The source's early-reject object
carries no `gridDensity`/`consistency` fields (they are `undefined` and
never read on that path); the model stores `0` there. -/
structure GridValidation where
  isValid : Bool
  confidence : ℚ
  gridDensity : ℚ
  consistency : ℚ
  reason : String
deriving DecidableEq

/-- `validateTableGrid` (`tableDetector.js` lines 180-208 = `part_005`
lines 1361-1387). -/
def validateTableGrid (rows : List Row) (columns : List ℤ) : GridValidation :=
  if rows.length < CONFIG.minRows ∨ columns.length < CONFIG.minCols then
    { isValid := false
      confidence := 0
      gridDensity := 0
      consistency := 0
      reason := "Need at least " ++ Nat.repr CONFIG.minRows ++ " rows and " ++
        Nat.repr CONFIG.minCols ++ " columns" }
  else
    let gridDensity := calculateGridDensity rows columns
    let consistency := measureColumnConsistency rows columns
    let confidence := (gridDensity + consistency) / 2
    let isValid : Bool :=
      decide (gridDensity ≥ CONFIG.minGridDensity) &&
        decide (consistency ≥ CONFIG.minColumnConsistency)
    { isValid := isValid
      confidence := confidence
      gridDensity := gridDensity
      consistency := consistency
      reason := if isValid then "Valid table structure detected" else "Grid structure too irregular" }

/-- A detected candidate table. -/
structure CandidateTable where
  rows : List Row
  columns : List ℤ
  confidence : ℚ
  gridDensity : ℚ
  consistency : ℚ
deriving DecidableEq

/-- Loop body of `detectMultipleTables`: accumulate rows; the moment the
accumulated set validates and reaches `minRows`, emit it and reset. -/
def detectMultipleTablesLoop : List Row → List CandidateTable → List Row → List CandidateTable
  | [], tables, _ => tables
  | row :: rest, tables, currentTableRows =>
    let acc := currentTableRows ++ [row]
    let xPositions := extractXPositions acc
    let columns := clusterXPositions xPositions CONFIG.columnThreshold
    let validation := validateTableGrid acc columns
    if validation.isValid ∧ CONFIG.minRows ≤ acc.length then
      detectMultipleTablesLoop rest
        (tables ++ [{ rows := acc
                      columns := columns
                      confidence := validation.confidence
                      gridDensity := validation.gridDensity
                      consistency := validation.consistency }]) []
    else
      detectMultipleTablesLoop rest tables acc

/-- `detectMultipleTables` (`tableDetector.js` lines 250-279 = `part_005`
lines 1410-1434).  The `textItems` argument is unused by the source too. -/
def detectMultipleTables (_textItems : List TextItem) (rows : List Row) : List CandidateTable :=
  detectMultipleTablesLoop rows [] []

/-- `detectTables` / `detectTablesInPage` (`tableDetector.js` lines
216-241 = `part_005` lines 1389-1408). -/
def detectTablesInPage (textItems : List TextItem) : List CandidateTable :=
  if textItems.length = 0 then []
  else
    let rows := groupByY textItems CONFIG.rowThreshold
    let xPositions := extractXPositions rows
    let columns := clusterXPositions xPositions CONFIG.columnThreshold
    let validation := validateTableGrid rows columns
    if validation.isValid then
      [{ rows := rows
         columns := columns
         confidence := validation.confidence
         gridDensity := validation.gridDensity
         consistency := validation.consistency }]
    else
      detectMultipleTables textItems rows

/-- `reconstructCells` (`tableDetector.js` lines 288-314 = `part_005`
lines 1436-1460): for each row and column index, the items in the column's
range, sorted by X (stably), texts joined by a space and trimmed. -/
def reconstructCells (rows : List Row) (columns : List ℤ) : List (List String) :=
  rows.map (fun row =>
    (List.range columns.length).map (fun i =>
      let cellItems := row.filter (inColRange columns i)
      let sortedItems := sortByLe (fun a b => decide (a.x ≤ b.x)) cellItems
      jsTrim (String.intercalate " " (sortedItems.map (fun item => item.text)))))

/-- Advisory merged-cell hint `{ row, col, span }`. -/
structure MergeSpanHint where
  row : Nat
  col : Nat
  span : Nat
deriving DecidableEq

/-- The `while` loop of `detectMergedCells` (`tableDetector.js` lines
344-350).  Note the source `break`s on success WITHOUT incrementing `span`,
so the returned span counts the failed probes plus one. -/
def spanSearch (textWidth : ℚ) (columns : List ℤ) (col : Nat) (span : Nat) (totalWidth : ℚ) : Nat :=
  if span < 5 ∧ col + span < columns.length - 1 then
    let nextColWidth : ℚ := ((columns.getD (col+span+1) 0 - columns.getD (col+span) 0 : ℤ) : ℚ)
    let totalWidth := totalWidth + nextColWidth
    if textWidth ≤ totalWidth * (11/10) then span
    else spanSearch textWidth columns col (span+1) totalWidth
  else span
termination_by 5 - span

/-- Per-cell body of `detectMergedCells` (`tableDetector.js` lines
328-356): skip empty cells, estimate width at 7 units per character,
compare against the column width and probe wider spans. -/
def hintForCell (columns : List ℤ) (row col : Nat) (cellText : String) : Option MergeSpanHint :=
  if cellText = "" then none
  else
    let textWidth : ℚ := (cellText.length : ℚ) * 7
    if col < columns.length - 1 then
      let colWidth : ℚ := ((columns.getD (col+1) 0 - columns.getD col 0 : ℤ) : ℚ)
      if textWidth > colWidth * CONFIG.mergedCellThreshold then
        let span := spanSearch textWidth columns col 1 colWidth
        if span > 1 then some { row := row, col := col, span := span } else none
      else none
    else none

/-- `detectMergedCells` (`tableDetector.js` lines 323-361): scan the grid
row-major and collect the per-cell hints. -/
def detectMergedCells (table : List (List String)) (columns : List ℤ) : List MergeSpanHint :=
  (List.range table.length).flatMap (fun row =>
    (List.range ((table.getD row []).length)).filterMap (fun col =>
      hintForCell columns row col ((table.getD row []).getD col "")))

/-- One sheet of the output workbook (`allTables` entries in
`convertToExcel`, `part_005` lines 1866-1923).  The fallback entry carries
no confidence (the source object simply lacks the field).  The source's
table entries additionally copy `gridDensity`/`consistency` next to
`confidence`; they are never read downstream and are omitted here. -/
structure SheetOutput where
  data : List (List String)
  sheetName : String
  page : Nat
  confidence : Option ℚ
deriving DecidableEq

/-- The three checkbox options read at `part_005` lines 1862-1864.
`autoDetectHeaders` is read by the source but never used downstream. -/
structure ExcelOptions where
  detectMultipleTables : Bool
  includePageNumbers : Bool
  autoDetectHeaders : Bool

/-- The vacuous-grid test `cells.length === 0 || cells.every(row =>
row.every(cell => !cell))` (`part_005` line 1898). -/
def isEmptyCellGrid (cells : List (List String)) : Bool :=
  cells.length == 0 || cells.all (fun row => row.all (fun cell => cell == ""))

/-- Sheet naming for an accepted table (`part_005` lines 1902-1913),
including the final `substring(0, maxSheetNameLength)` truncation.
`tableIndex` is 0-based, `allTablesLen` is the number of sheets already
accumulated across the document.  `Nat.repr` matches the JS template
literal for every value below 10^21 (see the module conventions). -/
def sheetNameFor (opts : ExcelOptions) (pageNum tablesCount tableIndex allTablesLen : Nat) : String :=
  let sheetName :=
    if opts.detectMultipleTables ∧ tablesCount > 1 then
      if opts.includePageNumbers then "P" ++ Nat.repr pageNum ++ "-T" ++ Nat.repr (tableIndex + 1)
      else "Table " ++ Nat.repr (allTablesLen + 1)
    else
      if opts.includePageNumbers then "Page " ++ Nat.repr pageNum
      else "Sheet " ++ Nat.repr (allTablesLen + 1)
  jsSubstring sheetName CONFIG.maxSheetNameLength

/-- The `for (tableIndex ...)` loop over a page's detected tables
(`part_005` lines 1894-1923): reconstruct, drop vacuous grids, name and
collect.  `allTablesLen` tracks `allTables.length` as sheets are pushed. -/
def tablesLoop (opts : ExcelOptions) (pageNum tablesCount : Nat) :
    List CandidateTable → Nat → Nat → List SheetOutput
  | [], _, _ => []
  | table :: rest, tableIndex, allTablesLen =>
    let cells := reconstructCells table.rows table.columns
    if isEmptyCellGrid cells then
      tablesLoop opts pageNum tablesCount rest (tableIndex + 1) allTablesLen
    else
      { data := cells
        sheetName := sheetNameFor opts pageNum tablesCount tableIndex allTablesLen
        page := pageNum
        confidence := some table.confidence } ::
        tablesLoop opts pageNum tablesCount rest (tableIndex + 1) (allTablesLen + 1)

/-- The per-page slice of `convertToExcel`'s page loop (`part_005` lines
1876-1923): skip empty pages, fall back to a single-cell sheet when no
table is detected, otherwise emit one sheet per non-vacuous table.  The
fallback name `"Page " ++ Nat.repr pageNum` matches the source's
`` `Page ${pageNum}` `` for every page number below 10^21, which covers
every value the JS page counter can reach (it cannot pass 2^53). -/
def processPage (textItems : List TextItem) (pageNum : Nat) (opts : ExcelOptions)
    (allTablesLen : Nat) : List SheetOutput :=
  if textItems.length = 0 then []
  else
    let tables := detectTablesInPage textItems
    if tables.length = 0 then
      let simpleRow := String.intercalate " " (textItems.map (fun item => item.text))
      [{ data := [[simpleRow]]
         sheetName :=
           if opts.includePageNumbers then "Page " ++ Nat.repr pageNum
           else "Sheet " ++ Nat.repr (allTablesLen + 1)
         page := pageNum
         confidence := none }]
    else
      tablesLoop opts pageNum tables.length tables 0 allTablesLen

/-- The document-level page loop of `convertToExcel` (`part_005` lines
1868-1924), accumulating `allTables` with `pageNum` counting from 1. -/
def convertPagesLoop (opts : ExcelOptions) :
    List (List TextItem) → Nat → List SheetOutput → List SheetOutput
  | [], _, allTables => allTables
  | page :: rest, pageNum, allTables =>
    convertPagesLoop opts rest (pageNum + 1) (allTables ++ processPage page pageNum opts allTables.length)

/-- `convertToExcel` (`part_005` lines 1838-1928), restricted to its pure
core: per-page text items in, sheets out; the single `throw` at line 1927
becomes `Except.error`. -/
def convertToExcel (pages : List (List TextItem)) (opts : ExcelOptions) :
    Except String (List SheetOutput) :=
  let allTables := convertPagesLoop opts pages 1 []
  if allTables.length = 0 then
    Except.error "No tables or text could be extracted from the PDF"
  else
    Except.ok allTables

/-- Modelled from the spec: the Column Clusterer described by claim C1 and
spec section 4.3, where a value joins the open cluster iff it is within the
threshold of the cluster's RUNNING AVERAGE (updated after every join).
Only used to exhibit that the source behaves differently. -/
def runningAvgClusterLoop (threshold : ℚ) : List ℤ → List ℤ → List (List ℤ)
  | [], currentCluster => [currentCluster]
  | x :: xs, currentCluster =>
    if |(x : ℚ) - listAvg currentCluster| ≤ threshold then
      runningAvgClusterLoop threshold xs (currentCluster ++ [x])
    else
      currentCluster :: runningAvgClusterLoop threshold xs [x]

/-- Modelled from the spec: full running-average clusterer of claim C1
(sections 4.3(c)-(d) of the spec), collapsing each cluster to its rounded
average. -/
def clusterXPositionsSpec (xPositions : List ℤ) (threshold : ℚ) : List ℤ :=
  match sortInt xPositions with
  | [] => []
  | x :: rest => (runningAvgClusterLoop threshold rest [x]).map (fun c => jsRound (listAvg c))

/-- Anchor-based greedy clustering of a sorted list: a value joins the open
cluster iff it is within the threshold of the cluster's FIRST member.  This
is the amended reading of claim C1; `clusterXPositions` is proved equal to
grouping with `anchorClusters` and collapsing each group to its rounded
average. -/
def anchorClusters (threshold : ℤ) : List ℤ → List (List ℤ)
  | [] => []
  | x :: xs =>
    (x :: xs.takeWhile (fun y => decide (|y - x| ≤ threshold))) ::
      anchorClusters threshold (xs.dropWhile (fun y => decide (|y - x| ≤ threshold)))
termination_by l => l.length
decreasing_by
  simp only [List.length_cons]
  exact Nat.lt_succ_of_le (List.Sublist.length_le (List.dropWhile_sublist _))

/-! ## Helper lemmas -/

lemma jsRound_le {q : ℚ} {n : ℤ} (h : q ≤ (n : ℚ)) : jsRound q ≤ n := by
  have h1 : q + 1/2 ≤ (n : ℚ) + 1/2 := by linarith
  have h2 := Int.floor_le_floor h1
  have h3 : ⌊(n : ℚ) + 1/2⌋ = n := by
    rw [add_comm, Int.floor_add_int]
    norm_num
  unfold jsRound
  omega

lemma le_jsRound {q : ℚ} {n : ℤ} (h : (n : ℚ) ≤ q) : n ≤ jsRound q := by
  have h1 : (n : ℚ) + 1/2 ≤ q + 1/2 := by linarith
  have h2 := Int.floor_le_floor h1
  have h3 : ⌊(n : ℚ) + 1/2⌋ = n := by
    rw [add_comm, Int.floor_add_int]
    norm_num
  unfold jsRound
  omega

lemma listAvg_le {l : List ℤ} (hne : l ≠ []) {n : ℤ} (h : ∀ y ∈ l, y ≤ n) :
    listAvg l ≤ (n : ℚ) := by
  have hlen : 0 < (l.length : ℚ) := by
    have : 0 < l.length := List.length_pos.mpr hne
    exact_mod_cast this
  unfold listAvg
  rw [div_le_iff₀ hlen]
  have h1 : l.sum ≤ l.length • n := List.sum_le_card_nsmul l n h
  have h2 : l.sum ≤ (l.length : ℤ) * n := by simpa [nsmul_eq_mul] using h1
  have h3 : (l.sum : ℚ) ≤ (((l.length : ℤ) * n : ℤ) : ℚ) := by exact_mod_cast h2
  calc (l.sum : ℚ) ≤ (((l.length : ℤ) * n : ℤ) : ℚ) := h3
    _ = (n : ℚ) * (l.length : ℚ) := by push_cast; ring

lemma le_listAvg {l : List ℤ} (hne : l ≠ []) {n : ℤ} (h : ∀ y ∈ l, n ≤ y) :
    (n : ℚ) ≤ listAvg l := by
  have hlen : 0 < (l.length : ℚ) := by
    have : 0 < l.length := List.length_pos.mpr hne
    exact_mod_cast this
  unfold listAvg
  rw [le_div_iff₀ hlen]
  have h1 : l.length • n ≤ l.sum := List.card_nsmul_le_sum l n h
  have h2 : (l.length : ℤ) * n ≤ l.sum := by simpa [nsmul_eq_mul] using h1
  have h3 : (((l.length : ℤ) * n : ℤ) : ℚ) ≤ (l.sum : ℚ) := by exact_mod_cast h2
  calc (n : ℚ) * (l.length : ℚ) = (((l.length : ℤ) * n : ℤ) : ℚ) := by push_cast; ring
    _ ≤ (l.sum : ℚ) := h3

lemma mem_insertByLe {α : Type} (le : α → α → Bool) (a : α) (l : List α) (y : α) :
    y ∈ insertByLe le a l ↔ y = a ∨ y ∈ l := by
  induction l with
  | nil => simp [insertByLe]
  | cons b bs ih =>
    rw [insertByLe]
    by_cases h : le a b
    · rw [if_pos h]
      simp
    · rw [if_neg h]
      simp only [List.mem_cons, ih]
      tauto

lemma pairwise_insertInt (a : ℤ) (l : List ℤ)
    (h : List.Pairwise (· ≤ ·) l) :
    List.Pairwise (· ≤ ·) (insertByLe (fun a b => decide (a ≤ b)) a l) := by
  induction l with
  | nil => simp [insertByLe]
  | cons b bs ih =>
    rw [insertByLe]
    rcases List.pairwise_cons.mp h with ⟨hb, hbs⟩
    by_cases hab : a ≤ b
    · rw [if_pos (by simpa using hab)]
      refine List.pairwise_cons.mpr ⟨?_, h⟩
      intro y hy
      rcases List.mem_cons.mp hy with rfl | hy
      · exact hab
      · exact hab.trans (hb y hy)
    · rw [if_neg (by simpa using hab)]
      refine List.pairwise_cons.mpr ⟨?_, ih hbs⟩
      intro y hy
      rcases (mem_insertByLe _ _ _ _).mp hy with rfl | hy
      · omega
      · exact hb y hy

lemma sortInt_pairwise (l : List ℤ) : List.Pairwise (· ≤ ·) (sortInt l) := by
  induction l with
  | nil => simp [sortInt, sortByLe]
  | cons a as ih =>
    rw [sortInt, sortByLe]
    exact pairwise_insertInt a _ ih

lemma clusterLoop_chain (threshold : ℤ) (ht : 0 ≤ threshold) (rest : List ℤ) :
    ∀ (cluster : List ℤ) (cx : ℤ), cluster ≠ [] →
      List.Pairwise (· ≤ ·) rest → (∀ y ∈ rest, cx ≤ y) →
      (∀ y ∈ cluster, cx ≤ y ∧ y ≤ cx + threshold) →
      List.Chain' (· < ·) (clusterLoop threshold rest cluster cx) ∧
        ∀ z ∈ clusterLoop threshold rest cluster cx, cx ≤ z := by
  induction rest with
  | nil =>
    intro cluster cx hne _ _ hcl
    constructor
    · simp [clusterLoop]
    · intro z hz
      rw [clusterLoop, List.mem_singleton] at hz
      subst hz
      exact le_jsRound (le_listAvg hne (fun y hy => (hcl y hy).1))
  | cons x xs ih =>
    intro cluster cx hne hpw hge hcl
    rw [clusterLoop]
    rcases List.pairwise_cons.mp hpw with ⟨hx_le, hxs_pw⟩
    have hcx_x : cx ≤ x := hge x (List.mem_cons_self x xs)
    by_cases h : |x - cx| ≤ threshold
    · rw [if_pos h]
      have hx_hi : x ≤ cx + threshold := by
        rw [abs_le] at h
        omega
      exact ih (cluster ++ [x]) cx (by simp) hxs_pw
        (fun y hy => hge y (List.mem_cons_of_mem x hy))
        (by
          intro y hy
          rcases List.mem_append.mp hy with hy | hy
          · exact hcl y hy
          · rw [List.mem_singleton] at hy
            subst hy
            exact ⟨hcx_x, hx_hi⟩)
    · rw [if_neg h]
      have hgt : cx + threshold < x := by
        rw [abs_of_nonneg (by omega : (0:ℤ) ≤ x - cx)] at h
        omega
      have htail := ih [x] x (by simp) hxs_pw hx_le
        (by
          intro y hy
          rw [List.mem_singleton] at hy
          subst hy
          omega)
      have hhead_le : jsRound (listAvg cluster) ≤ cx + threshold :=
        jsRound_le (le_trans (listAvg_le hne (fun y hy => (hcl y hy).2)) (by push_cast; ring_nf; exact le_refl _))
      constructor
      · rw [List.chain'_cons']
        refine ⟨?_, htail.1⟩
        intro b hb
        have hb_mem : b ∈ clusterLoop threshold xs [x] x := List.mem_of_mem_head? hb
        have := htail.2 b hb_mem
        omega
      · intro z hz
        rcases List.mem_cons.mp hz with rfl | hz
        · exact le_jsRound (le_listAvg hne (fun y hy => (hcl y hy).1))
        · have := htail.2 z hz
          omega

/-! ## Claim theorems -/

/-- C8: for every rows/columns input, the grid returned by
`reconstructCells` is rectangular: exactly `rows.length` entries, each of
length exactly `columns.length` (cells possibly empty strings). -/
theorem reconstructCells_rectangular (rows : List Row) (columns : List ℤ) :
    (reconstructCells rows columns).length = rows.length ∧
      ((reconstructCells rows columns).all fun r => r.length == columns.length) = true := by
  constructor
  · simp [reconstructCells]
  · rw [List.all_eq_true]
    intro r hr
    rw [reconstructCells, List.mem_map] at hr
    rcases hr with ⟨row, _, rfl⟩
    simp

/-- C4: the Grid Validator rejects with confidence 0 when there are fewer
than `minRows` rows or `minCols` columns; otherwise its confidence is the
mean of density and consistency and it accepts iff density and consistency
clear their configured minimums, all four bounds read from `CONFIG`. -/
theorem validateTableGrid_spec (rows : List Row) (columns : List ℤ) :
    ((rows.length < CONFIG.minRows ∨ columns.length < CONFIG.minCols) →
      (validateTableGrid rows columns).isValid = false ∧
        (validateTableGrid rows columns).confidence = 0) ∧
    (CONFIG.minRows ≤ rows.length → CONFIG.minCols ≤ columns.length →
      (validateTableGrid rows columns).confidence =
        (calculateGridDensity rows columns + measureColumnConsistency rows columns) / 2 ∧
      ((validateTableGrid rows columns).isValid = true ↔
        CONFIG.minGridDensity ≤ calculateGridDensity rows columns ∧
          CONFIG.minColumnConsistency ≤ measureColumnConsistency rows columns)) := by
  constructor
  · intro h
    unfold validateTableGrid
    rw [if_pos h]
    exact ⟨rfl, rfl⟩
  · intro h1 h2
    unfold validateTableGrid
    rw [if_neg (by omega)]
    refine ⟨rfl, ?_⟩
    simp [ge_iff_le]

/-- C4 witness: a concrete 2-row, 2-column grid with every cell populated
is accepted by the validator. -/
theorem validateTableGrid_spec_witness :
    (validateTableGrid
      [[⟨"a", 0, 100, 10, 12, "f"⟩, ⟨"b", 50, 100, 10, 12, "f"⟩],
       [⟨"c", 0, 50, 10, 12, "f"⟩, ⟨"d", 50, 50, 10, 12, "f"⟩]] [0, 50]).isValid = true :=
  ((validateTableGrid_spec _ _).2 (by decide) (by decide)).2.mpr
    (by
      norm_num [calculateGridDensity, measureColumnConsistency, CONFIG,
        inColRange, colEndAt, List.range_succ, List.countP_cons, List.getD])

/-- C6: the rows of the CandidateTables emitted by the Table Segmenter are
consecutive, pairwise disjoint segments of the input row list (in order);
concatenating them and appending the dropped tail recovers the input
exactly, so a row placed in one emitted table never reappears in a later
one. -/
theorem detectMultipleTables_rows_partition (textItems : List TextItem) (rows : List Row) :
    ∃ leftover,
      (((detectMultipleTables textItems rows).map fun t => t.rows).flatten) ++ leftover = rows := by
  have key : ∀ (rest : List Row) (tables : List CandidateTable) (current : List Row),
      ∃ leftover,
        ((detectMultipleTablesLoop rest tables current).map fun t => t.rows).flatten ++ leftover =
          ((tables.map fun t => t.rows).flatten) ++ current ++ rest := by
    intro rest
    induction rest with
    | nil =>
      intro tables current
      exact ⟨current, by simp [detectMultipleTablesLoop]⟩
    | cons row rest2 ih =>
      intro tables current
      rw [detectMultipleTablesLoop]
      split
      · rcases ih (tables ++
          [{ rows := current ++ [row]
             columns := clusterXPositions (extractXPositions (current ++ [row])) CONFIG.columnThreshold
             confidence := (validateTableGrid (current ++ [row]) (clusterXPositions (extractXPositions (current ++ [row])) CONFIG.columnThreshold)).confidence
             gridDensity := (validateTableGrid (current ++ [row]) (clusterXPositions (extractXPositions (current ++ [row])) CONFIG.columnThreshold)).gridDensity
             consistency := (validateTableGrid (current ++ [row]) (clusterXPositions (extractXPositions (current ++ [row])) CONFIG.columnThreshold)).consistency }]) [] with ⟨l, hl⟩
        refine ⟨l, ?_⟩
        rw [hl]
        simp
      · rcases ih tables (current ++ [row]) with ⟨l, hl⟩
        refine ⟨l, ?_⟩
        rw [hl]
        simp
  rcases key rows [] [] with ⟨l, hl⟩
  exact ⟨l, by simpa [detectMultipleTables] using hl⟩

/-- C1 counterexample: on the sorted input `[0, 10, 15]` with the default
threshold 10, the source clusterer (anchored to the cluster's first
member) yields `[5, 15]`, while the running-average clusterer described by
the claim would merge everything and yield `[8]`. -/
theorem clusterXPositions_counterexample :
    clusterXPositions [0, 10, 15] 10 = [5, 15] ∧
      clusterXPositionsSpec [0, 10, 15] 10 = [8] ∧
      clusterXPositions [0, 10, 15] 10 ≠ clusterXPositionsSpec [0, 10, 15] 10 := by
  refine ⟨?_, ?_, ?_⟩
  · norm_num [clusterXPositions, sortInt, sortByLe, insertByLe, clusterLoop, listAvg, jsRound]
  · norm_num [clusterXPositionsSpec, sortInt, sortByLe, insertByLe, runningAvgClusterLoop,
      listAvg, jsRound]
  · norm_num [clusterXPositions, clusterXPositionsSpec, sortInt, sortByLe, insertByLe,
      clusterLoop, runningAvgClusterLoop, listAvg, jsRound]

lemma clusterLoop_eq_anchor (threshold : ℤ) (rest : List ℤ) :
    ∀ (cluster : List ℤ) (cx : ℤ),
      clusterLoop threshold rest cluster cx =
        jsRound (listAvg (cluster ++ rest.takeWhile (fun y => decide (|y - cx| ≤ threshold)))) ::
          (anchorClusters threshold
            (rest.dropWhile (fun y => decide (|y - cx| ≤ threshold)))).map
              (fun c => jsRound (listAvg c)) := by
  induction rest with
  | nil =>
    intro cluster cx
    simp [clusterLoop, anchorClusters]
  | cons x xs ih =>
    intro cluster cx
    rw [clusterLoop]
    by_cases h : |x - cx| ≤ threshold
    · rw [if_pos h]
      rw [ih (cluster ++ [x]) cx]
      simp [List.takeWhile_cons, List.dropWhile_cons, h]
    · rw [if_neg h]
      rw [ih [x] x]
      simp only [List.takeWhile_cons, List.dropWhile_cons, decide_eq_true_eq, h, if_false,
        ite_false, List.append_nil]
      rw [anchorClusters]
      simp [h]

/-- C1 amended: in the Column Clusterer a new value joins the current
cluster iff it is within the column threshold of the cluster's FIRST
member (the anchor is never updated as members join — the running-average
rule holds for no cluster with members at distinct positions); each
finished cluster is still collapsed to its rounded average. -/
theorem clusterXPositions_eq_anchorClusters (xPositions : List ℤ) (threshold : ℤ) :
    clusterXPositions xPositions threshold =
      (anchorClusters threshold (sortInt xPositions)).map (fun c => jsRound (listAvg c)) := by
  unfold clusterXPositions
  cases h : sortInt xPositions with
  | nil => simp [anchorClusters]
  | cons x rest =>
    show clusterLoop threshold rest [x] x =
      (anchorClusters threshold (x :: rest)).map (fun c => jsRound (listAvg c))
    rw [clusterLoop_eq_anchor]
    rw [anchorClusters]
    simp

/-- C7: the Column Clusterer's output is strictly ascending (hence has no
duplicate values) for every input list of X positions, at the configured
column threshold. -/
theorem clusterXPositions_strictly_ascending (xPositions : List ℤ) :
    List.Pairwise (· < ·) (clusterXPositions xPositions CONFIG.columnThreshold) := by
  unfold clusterXPositions
  cases h : sortInt xPositions with
  | nil => simp
  | cons x rest =>
    have hpw : List.Pairwise (· ≤ ·) (x :: rest) := h ▸ sortInt_pairwise xPositions
    rcases List.pairwise_cons.mp hpw with ⟨hx_le, hrest⟩
    have hcl : ∀ y ∈ ([x] : List ℤ), x ≤ y ∧ y ≤ x + CONFIG.columnThreshold := by
      intro y hy
      rw [List.mem_singleton] at hy
      subst hy
      have h10 : (0:ℤ) ≤ CONFIG.columnThreshold := by decide
      omega
    have hchain := clusterLoop_chain CONFIG.columnThreshold (by decide) rest [x] x
      (by simp) hrest hx_le hcl
    exact List.chain'_iff_pairwise.mp hchain.1

lemma spanSearch_le_five :
    ∀ (k span : Nat), 5 - span ≤ k → span ≤ 5 →
      ∀ (textWidth totalWidth : ℚ) (columns : List ℤ) (col : Nat),
        spanSearch textWidth columns col span totalWidth ≤ 5 := by
  intro k
  induction k with
  | zero =>
    intro span hk hle textWidth totalWidth columns col
    rw [spanSearch]
    have hnc : ¬(span < 5 ∧ col + span < columns.length - 1) := by omega
    rw [if_neg hnc]
    exact hle
  | succ n ih =>
    intro span hk hle textWidth totalWidth columns col
    rw [spanSearch]
    by_cases hc : span < 5 ∧ col + span < columns.length - 1
    · rw [if_pos hc]
      by_cases hbreak : textWidth ≤
          (totalWidth + ((columns.getD (col+span+1) 0 - columns.getD (col+span) 0 : ℤ) : ℚ)) * (11/10)
      · rw [if_pos hbreak]
        exact hle
      · rw [if_neg hbreak]
        exact ih (span + 1) (by omega) (by omega) _ _ _ _
    · rw [if_neg hc]
      exact hle

lemma le_spanSearch :
    ∀ (k span : Nat), 5 - span ≤ k →
      ∀ (textWidth totalWidth : ℚ) (columns : List ℤ) (col : Nat),
        span ≤ spanSearch textWidth columns col span totalWidth := by
  intro k
  induction k with
  | zero =>
    intro span hk textWidth totalWidth columns col
    rw [spanSearch]
    have hnc : ¬(span < 5 ∧ col + span < columns.length - 1) := by omega
    rw [if_neg hnc]
  | succ n ih =>
    intro span hk textWidth totalWidth columns col
    rw [spanSearch]
    by_cases hc : span < 5 ∧ col + span < columns.length - 1
    · rw [if_pos hc]
      by_cases hbreak : textWidth ≤
          (totalWidth + ((columns.getD (col+span+1) 0 - columns.getD (col+span) 0 : ℤ) : ℚ)) * (11/10)
      · rw [if_pos hbreak]
      · rw [if_neg hbreak]
        exact (Nat.le_succ span).trans (ih (span + 1) (by omega) _ _ _ _)
    · rw [if_neg hc]

lemma hintForCell_span_bounds {columns : List ℤ} {row col : Nat} {cellText : String}
    {h : MergeSpanHint} (he : hintForCell columns row col cellText = some h) :
    2 ≤ h.span ∧ h.span ≤ 5 := by
  simp only [hintForCell] at he
  split_ifs at he with h1 h2 h3 h4
  obtain rfl := Option.some_inj.mp he
  constructor
  · show 2 ≤ spanSearch _ _ _ 1 _
    omega
  · show spanSearch _ _ _ 1 _ ≤ 5
    exact spanSearch_le_five 5 1 (by omega) (by omega) _ _ _ _

/-- C2 counterexample: with columns `[0, 10, 100, 200]` and the cell text
"ab" (estimated width 14 > 0.9 x 10), absorbing ONE additional column
already brings the available width (10 + 90 = 100) within 10% of the
estimate, yet the source emits no hint at all, because its loop breaks
before incrementing `span`, leaving `span = 1`. -/
theorem detectMergedCells_counterexample :
    detectMergedCells [["ab", "", "", ""]] [0, 10, 100, 200] = [] ∧
      (("ab".length : ℚ) * 7 > 10 * CONFIG.mergedCellThreshold) ∧
      (("ab".length : ℚ) * 7 ≤ (10 + 90) * (11/10)) := by
  have hempty : ∀ r c : Nat, hintForCell [0, 10, 100, 200] r c "" = none := by
    intro r c
    simp [hintForCell]
  have hspan_cond : ¬(spanSearch (("ab".length : ℚ) * 7) [0, 10, 100, 200] 0 1
      ((([0, 10, 100, 200] : List ℤ).getD (0+1) 0 - ([0, 10, 100, 200] : List ℤ).getD 0 0 : ℤ) : ℚ) > 1) := by
    rw [spanSearch]
    rw [if_pos (show 1 < 5 ∧ 0 + 1 < ([0, 10, 100, 200] : List ℤ).length - 1 by decide)]
    rw [if_pos (by norm_num [List.getD, show "ab".length = 2 from rfl])]
    decide
  have hcell : hintForCell [0, 10, 100, 200] 0 0 "ab" = none := by
    simp only [hintForCell]
    rw [if_neg (show ¬("ab" = "") by decide)]
    rw [if_pos (show 0 < ([0, 10, 100, 200] : List ℤ).length - 1 by decide)]
    rw [if_pos (by norm_num [List.getD, CONFIG, show "ab".length = 2 from rfl])]
    rw [if_neg hspan_cond]
  refine ⟨?_, by norm_num [CONFIG, show "ab".length = 2 from rfl],
    by norm_num [show "ab".length = 2 from rfl]⟩
  simp [detectMergedCells, List.range_succ, List.getD, hcell, hempty]

lemma mem_detectMergedCells_of_hint {table : List (List String)} {columns : List ℤ}
    {row col : Nat} {h : MergeSpanHint}
    (hrow : row < table.length) (hcol : col < (table.getD row []).length)
    (he : hintForCell columns row col ((table.getD row []).getD col "") = some h) :
    h ∈ detectMergedCells table columns := by
  unfold detectMergedCells
  rw [List.mem_flatMap]
  exact ⟨row, List.mem_range.mpr hrow, List.mem_filterMap.mpr ⟨col, List.mem_range.mpr hcol, he⟩⟩

/-- C2 amended: every hint emitted by the Merge-Span Estimator has span
between 2 and 5 (so all spans are capped at 5); and whenever a non-empty
cell at least two columns before the last has estimated width above 0.9
times its column width AND above 110% of the width available after
absorbing the first additional column (one absorbed column does NOT
suffice — when it does, the source breaks with `span = 1` and emits
nothing), a hint for that cell with some span in [2, 5] is emitted. -/
theorem detectMergedCells_spec (table : List (List String)) (columns : List ℤ) :
    (∀ h ∈ detectMergedCells table columns, 2 ≤ h.span ∧ h.span ≤ 5) ∧
    (∀ row col, row < table.length → col < (table.getD row []).length →
      (table.getD row []).getD col "" ≠ "" →
      col + 1 < columns.length - 1 →
      ((((table.getD row []).getD col "").length : ℚ) * 7 >
        ((columns.getD (col+1) 0 - columns.getD col 0 : ℤ) : ℚ) * CONFIG.mergedCellThreshold) →
      ((((table.getD row []).getD col "").length : ℚ) * 7 >
        ((columns.getD (col+2) 0 - columns.getD col 0 : ℤ) : ℚ) * (11/10)) →
      ∃ s, 2 ≤ s ∧ s ≤ 5 ∧ MergeSpanHint.mk row col s ∈ detectMergedCells table columns) := by
  constructor
  · intro h hmem
    unfold detectMergedCells at hmem
    rw [List.mem_flatMap] at hmem
    rcases hmem with ⟨row, _, hmem⟩
    rw [List.mem_filterMap] at hmem
    rcases hmem with ⟨col, _, he⟩
    exact hintForCell_span_bounds he
  · intro row col hrow hcol hne hcols h09 h11
    have h11x : ((((table.getD row []).getD col "").length : ℚ) * 7 >
        ((columns.getD (col+1+1) 0 - columns.getD col 0 : ℤ) : ℚ) * (11/10)) := h11
    have hfirst : ¬((((table.getD row []).getD col "").length : ℚ) * 7 ≤
        (((columns.getD (col+1) 0 - columns.getD col 0 : ℤ) : ℚ) +
          ((columns.getD (col+1+1) 0 - columns.getD (col+1) 0 : ℤ) : ℚ)) * (11/10)) := by
      have hsum : ((columns.getD (col+1) 0 - columns.getD col 0 : ℤ) : ℚ) +
          ((columns.getD (col+1+1) 0 - columns.getD (col+1) 0 : ℤ) : ℚ) =
          ((columns.getD (col+1+1) 0 - columns.getD col 0 : ℤ) : ℚ) := by
        push_cast
        ring
      rw [hsum]
      exact not_le.mpr h11x
    have hspan1 : spanSearch ((((table.getD row []).getD col "").length : ℚ) * 7) columns col 1
        ((columns.getD (col+1) 0 - columns.getD col 0 : ℤ) : ℚ) =
        spanSearch ((((table.getD row []).getD col "").length : ℚ) * 7) columns col (1+1)
          (((columns.getD (col+1) 0 - columns.getD col 0 : ℤ) : ℚ) +
            ((columns.getD (col+1+1) 0 - columns.getD (col+1) 0 : ℤ) : ℚ)) := by
      rw [spanSearch]
      rw [if_pos (show 1 < 5 ∧ col + 1 < columns.length - 1 from ⟨by omega, by omega⟩)]
      rw [if_neg hfirst]
    have hlo : 2 ≤ spanSearch ((((table.getD row []).getD col "").length : ℚ) * 7) columns col 1
        ((columns.getD (col+1) 0 - columns.getD col 0 : ℤ) : ℚ) := by
      rw [hspan1]
      exact le_spanSearch 5 (1+1) (by omega) _ _ _ _
    have hhi : spanSearch ((((table.getD row []).getD col "").length : ℚ) * 7) columns col 1
        ((columns.getD (col+1) 0 - columns.getD col 0 : ℤ) : ℚ) ≤ 5 :=
      spanSearch_le_five 5 1 (by omega) (by omega) _ _ _ _
    have hemit : hintForCell columns row col ((table.getD row []).getD col "") =
        some ⟨row, col,
          spanSearch ((((table.getD row []).getD col "").length : ℚ) * 7) columns col 1
            ((columns.getD (col+1) 0 - columns.getD col 0 : ℤ) : ℚ)⟩ := by
      simp only [hintForCell]
      rw [if_neg hne]
      rw [if_pos (show col < columns.length - 1 by omega)]
      rw [if_pos h09]
      rw [if_pos (show spanSearch ((((table.getD row []).getD col "").length : ℚ) * 7) columns col 1
        ((columns.getD (col+1) 0 - columns.getD col 0 : ℤ) : ℚ) > 1 by omega)]
    exact ⟨spanSearch ((((table.getD row []).getD col "").length : ℚ) * 7) columns col 1
        ((columns.getD (col+1) 0 - columns.getD col 0 : ℤ) : ℚ), hlo, hhi,
      mem_detectMergedCells_of_hint hrow hcol hemit⟩

/-- C2 witness: columns `[0, 10, 20, 300]` with a 10-character cell
(estimated width 70): one absorbed column gives total width 20 (70 > 22),
so a hint with span in [2, 5] is emitted for cell (0, 0). -/
theorem detectMergedCells_spec_witness :
    ∃ s, 2 ≤ s ∧ s ≤ 5 ∧
      MergeSpanHint.mk 0 0 s ∈ detectMergedCells [["abcdefghij", "", "", ""]] [0, 10, 20, 300] :=
  (detectMergedCells_spec [["abcdefghij", "", "", ""]] [0, 10, 20, 300]).2 0 0
    (by decide) (by decide) (by decide) (by decide)
    (by norm_num [CONFIG, List.getD, show "abcdefghij".length = 10 from rfl])
    (by norm_num [List.getD, show "abcdefghij".length = 10 from rfl])

lemma inColRange_false_of_lt_head {columns : List ℤ} {item : TextItem}
    (hpw : List.Pairwise (· ≤ ·) columns)
    (hlt : ∀ c0, columns.head? = some c0 → item.x < c0) :
    ∀ i < columns.length, inColRange columns i item = false := by
  intro i hi
  cases columns with
  | nil => simp at hi
  | cons c0 rest =>
    have hx : item.x < c0 := hlt c0 rfl
    have hle : c0 ≤ (c0 :: rest).getD i 0 := by
      rcases Nat.eq_zero_or_pos i with rfl | hpos
      · simp [List.getD]
      · have hg := List.pairwise_iff_getElem.mp hpw 0 i (by simp) hi hpos
        rw [List.getD_eq_getElem _ 0 hi]
        simpa using hg
    have hnle : ¬((c0 :: rest).getD i 0 ≤ item.x) := by omega
    unfold inColRange
    rw [decide_eq_false hnle]
    rfl

lemma filter_ne_any {row : Row} {p : TextItem → Bool} {item : TextItem} (hp : p item = false) :
    (row.filter (fun it => decide (it ≠ item))).any p = row.any p := by
  induction row with
  | nil => rfl
  | cons a as ih =>
    by_cases ha : a = item
    · subst ha
      have h1 : (a :: as).filter (fun it => decide (it ≠ a)) =
          as.filter (fun it => decide (it ≠ a)) := by
        rw [List.filter_cons, if_neg (by simp)]
      rw [h1, ih, List.any_cons, hp, Bool.false_or]
    · have h1 : (a :: as).filter (fun it => decide (it ≠ item)) =
          a :: as.filter (fun it => decide (it ≠ item)) := by
        rw [List.filter_cons, if_pos (by simp [ha])]
      rw [h1, List.any_cons, List.any_cons, ih]

lemma filter_ne_filter {row : Row} {p : TextItem → Bool} {item : TextItem} (hp : p item = false) :
    (row.filter (fun it => decide (it ≠ item))).filter p = row.filter p := by
  induction row with
  | nil => rfl
  | cons a as ih =>
    by_cases ha : a = item
    · subst ha
      have h1 : (a :: as).filter (fun it => decide (it ≠ a)) =
          as.filter (fun it => decide (it ≠ a)) := by
        rw [List.filter_cons, if_neg (by simp)]
      rw [h1, ih, List.filter_cons, if_neg (by simp [hp])]
    · have h1 : (a :: as).filter (fun it => decide (it ≠ item)) =
          a :: as.filter (fun it => decide (it ≠ item)) := by
        rw [List.filter_cons, if_pos (by simp [ha])]
      rw [h1, List.filter_cons, ih, List.filter_cons]

/-- C10: a fragment lying strictly left of the first column boundary is
assigned to no cell by the Cell Reconstructor (removing every copy of it
changes neither the reconstructed grid nor gridDensity nor consistency,
and it passes no column's membership test); and the clusterer can indeed
produce a first boundary strictly above a member X, because a boundary is
the rounded average of its cluster.  Columns are assumed ascending, which
`clusterXPositions` always guarantees for pipeline-produced columns. -/
theorem reconstructCells_ignores_left_outlier (rows : List Row) (columns : List ℤ)
    (item : TextItem) (hpw : List.Pairwise (· ≤ ·) columns)
    (hlt : ∀ c0, columns.head? = some c0 → item.x < c0) :
    (∀ i < columns.length, inColRange columns i item = false) ∧
    reconstructCells (rows.map (fun row => row.filter (fun it => decide (it ≠ item)))) columns =
      reconstructCells rows columns ∧
    calculateGridDensity (rows.map (fun row => row.filter (fun it => decide (it ≠ item)))) columns =
      calculateGridDensity rows columns ∧
    measureColumnConsistency (rows.map (fun row => row.filter (fun it => decide (it ≠ item)))) columns =
      measureColumnConsistency rows columns ∧
    (∃ xs : List ℤ, ∃ b, (clusterXPositions xs CONFIG.columnThreshold).head? = some b ∧
      ∃ x ∈ xs, x < b) := by
  have hfalse := inColRange_false_of_lt_head hpw hlt
  refine ⟨hfalse, ?_, ?_, ?_, ?_⟩
  · unfold reconstructCells
    rw [List.map_map]
    apply List.map_congr_left
    intro row _
    simp only [Function.comp_apply]
    apply List.map_congr_left
    intro i hi
    rw [List.mem_range] at hi
    have heq := @filter_ne_filter row (inColRange columns i) item (hfalse i hi)
    simp only [heq]
  · have hrowscount : (rows.map (fun row => row.filter (fun it => decide (it ≠ item)))).map
        (fun row => (List.range columns.length).countP (fun i => row.any (inColRange columns i))) =
        rows.map (fun row =>
          (List.range columns.length).countP (fun i => row.any (inColRange columns i))) := by
      rw [List.map_map]
      apply List.map_congr_left
      intro row _
      simp only [Function.comp_apply]
      apply List.countP_congr
      intro i himem
      rw [List.mem_range] at himem
      rw [filter_ne_any (hfalse i himem)]
    simp only [calculateGridDensity, List.length_map, hrowscount]
  · have hcols : ∀ i, i < columns.length →
        (rows.map (fun row => row.filter (fun it => decide (it ≠ item)))).countP
          (fun row => row.any (inColRange columns i)) =
        rows.countP (fun row => row.any (inColRange columns i)) := by
      intro i hi
      rw [List.countP_map]
      apply List.countP_congr
      intro row _
      simp only [Function.comp_apply]
      rw [filter_ne_any (hfalse i hi)]
    have hcount : (List.range columns.length).countP (fun i =>
        decide ((((rows.map (fun row => row.filter (fun it => decide (it ≠ item)))).countP
          (fun row => row.any (inColRange columns i))) : ℚ) ≥
            (rows.length : ℚ) * (1/2))) =
        (List.range columns.length).countP (fun i =>
          decide (((rows.countP (fun row => row.any (inColRange columns i))) : ℚ) ≥
            (rows.length : ℚ) * (1/2))) := by
      apply List.countP_congr
      intro i himem
      rw [List.mem_range] at himem
      rw [hcols i himem]
    simp only [measureColumnConsistency, List.length_map, hcount]
  · refine ⟨[0, 10], 5, ?_, 0, by norm_num, by norm_num⟩
    norm_num [clusterXPositions, sortInt, sortByLe, insertByLe, clusterLoop, listAvg, jsRound,
      CONFIG, List.head?]

/-- C10 witness: columns `[5, 50]` (as produced by clustering `[0, 10]`
and `[50]`), with an outlier fragment at `x = 0`: filtering it out of the
row leaves the reconstructed grid unchanged. -/
theorem reconstructCells_ignores_left_outlier_witness :
    reconstructCells
      ([[⟨"o", 0, 100, 10, 12, "f"⟩, ⟨"a", 5, 100, 10, 12, "f"⟩, ⟨"b", 50, 100, 10, 12, "f"⟩]].map
        (fun row => row.filter (fun it => decide (it ≠ (⟨"o", 0, 100, 10, 12, "f"⟩ : TextItem)))))
      [5, 50] =
    reconstructCells
      [[⟨"o", 0, 100, 10, 12, "f"⟩, ⟨"a", 5, 100, 10, 12, "f"⟩, ⟨"b", 50, 100, 10, 12, "f"⟩]]
      [5, 50] :=
  (reconstructCells_ignores_left_outlier _ _ _ (by decide)
    (by
      intro c0 hc
      rw [List.head?_cons] at hc
      obtain rfl := Option.some_inj.mp hc
      decide)).2.1

/-- C3: when the fragment list of a page is non-empty but table detection
accepts zero tables, exactly one fallback sheet is emitted, holding a
single row with a single cell whose text is the space-join of every
fragment's text in extraction order. -/
theorem processPage_fallback (textItems : List TextItem) (pageNum : Nat) (opts : ExcelOptions)
    (allTablesLen : Nat) (hne : textItems ≠ [])
    (hno : detectTablesInPage textItems = []) :
    processPage textItems pageNum opts allTablesLen =
      [{ data := [[String.intercalate " " (textItems.map (fun item => item.text))]]
         sheetName :=
           if opts.includePageNumbers then "Page " ++ Nat.repr pageNum
           else "Sheet " ++ Nat.repr (allTablesLen + 1)
         page := pageNum
         confidence := none }] := by
  unfold processPage
  rw [if_neg (by simpa using hne)]
  simp only [hno]
  rw [if_pos (show ([] : List CandidateTable).length = 0 from rfl)]

/-- C3 witness: a one-fragment page (which never validates as a table)
yields exactly the single-cell fallback sheet. -/
theorem processPage_fallback_witness :
    processPage [⟨"hello", 0, 0, 10, 12, "f"⟩] 3 ⟨true, true, true⟩ 0 =
      [{ data := [["hello"]], sheetName := "Page 3", page := 3, confidence := none }] := by
  rw [processPage_fallback _ _ _ _ (by decide) (by
    norm_num [detectTablesInPage, groupByY, sortByLe, insertByLe, groupLoop, extractXPositions,
      sortInt, clusterXPositions, clusterLoop, listAvg, jsRound, validateTableGrid, CONFIG,
      detectMultipleTables, detectMultipleTablesLoop])]
  decide

lemma tablesLoop_length (opts : ExcelOptions) (pageNum tablesCount : Nat) :
    ∀ (tables : List CandidateTable) (tableIndex allTablesLen : Nat),
      (tablesLoop opts pageNum tablesCount tables tableIndex allTablesLen).length =
        tables.countP (fun t => !isEmptyCellGrid (reconstructCells t.rows t.columns)) := by
  intro tables
  induction tables with
  | nil => intro i a; rfl
  | cons t rest ih =>
    intro i a
    rw [tablesLoop]
    by_cases hv : isEmptyCellGrid (reconstructCells t.rows t.columns) = true
    · rw [if_pos hv, ih, List.countP_cons]
      simp [hv]
    · rw [if_neg hv]
      rw [List.length_cons, ih, List.countP_cons]
      simp [hv]

lemma processPage_length_indep (textItems : List TextItem) (opts : ExcelOptions)
    (n n2 a a2 : Nat) :
    (processPage textItems n opts a).length = (processPage textItems n2 opts a2).length := by
  unfold processPage
  by_cases he : textItems.length = 0
  · rw [if_pos he, if_pos he]
  · rw [if_neg he, if_neg he]
    by_cases ht : (detectTablesInPage textItems).length = 0
    · rw [if_pos ht, if_pos ht]
      simp
    · rw [if_neg ht, if_neg ht]
      rw [tablesLoop_length, tablesLoop_length]

lemma convertPagesLoop_eq_nil_iff (opts : ExcelOptions) :
    ∀ (pages : List (List TextItem)) (n : Nat) (acc : List SheetOutput),
      (convertPagesLoop opts pages n acc = [] ↔
        (acc = [] ∧ ∀ p ∈ pages, ∀ m a, processPage p m opts a = [])) := by
  intro pages
  induction pages with
  | nil =>
    intro n acc
    simp [convertPagesLoop]
  | cons p rest ih =>
    intro n acc
    rw [convertPagesLoop, ih]
    constructor
    · rintro ⟨happ, hall⟩
      rcases List.append_eq_nil.mp happ with ⟨hacc, hpp⟩
      refine ⟨hacc, ?_⟩
      intro q hq m a
      rcases List.mem_cons.mp hq with rfl | hq
      · have hlen := processPage_length_indep q opts m n a acc.length
        rw [hpp] at hlen
        exact List.length_eq_zero.mp (by simpa using hlen)
      · exact hall q hq m a
    · rintro ⟨hacc, hall⟩
      subst hacc
      refine ⟨?_, fun q hq m a => hall q (List.mem_cons_of_mem p hq) m a⟩
      simp [hall p (List.mem_cons_self p rest)]

/-- C9: the conversion pipeline signals a failure to its caller exactly
when every page contributes zero sheets (no text and no tables extracted
from the entire document); whenever it returns successfully the sheet list
is non-empty, and no other well-typed input makes it signal anything. -/
theorem convertToExcel_failure_iff (pages : List (List TextItem)) (opts : ExcelOptions) :
    ((∃ e, convertToExcel pages opts = Except.error e) ↔
      ∀ p ∈ pages, ∀ pageNum allTablesLen, processPage p pageNum opts allTablesLen = []) ∧
    (∀ sheets, convertToExcel pages opts = Except.ok sheets → sheets ≠ []) := by
  simp only [convertToExcel]
  constructor
  · by_cases h : (convertPagesLoop opts pages 1 []).length = 0
    · rw [if_pos h]
      have hiff := (convertPagesLoop_eq_nil_iff opts pages 1 []).mp (List.length_eq_zero.mp h)
      constructor
      · intro _
        exact hiff.2
      · intro _
        exact ⟨_, rfl⟩
    · rw [if_neg h]
      constructor
      · rintro ⟨e, he⟩
        exact absurd he (by simp)
      · intro hall
        exfalso
        apply h
        rw [(convertPagesLoop_eq_nil_iff opts pages 1 []).mpr ⟨rfl, hall⟩]
        rfl
  · intro sheets hok
    by_cases h : (convertPagesLoop opts pages 1 []).length = 0
    · rw [if_pos h] at hok
      exact absurd hok (by simp)
    · rw [if_neg h] at hok
      injection hok with h2
      intro hnil
      apply h
      rw [h2, hnil]
      rfl

/-- C9 witness: a document consisting of one empty page produces zero
sheets on every page, so the pipeline signals the document-empty failure. -/
theorem convertToExcel_failure_iff_witness :
    ∃ e, convertToExcel [[]] ⟨true, true, true⟩ = Except.error e :=
  (convertToExcel_failure_iff [[]] ⟨true, true, true⟩).1.mpr
    (by
      intro p hp m a
      rw [List.mem_singleton] at hp
      subst hp
      rfl)

lemma jsSubstring_length_le (s : String) (n : Nat) : (jsSubstring s n).length ≤ n := by
  unfold jsSubstring
  simp [List.length_take]

lemma mem_tablesLoop_sheetName (opts : ExcelOptions) (pageNum tablesCount : Nat) :
    ∀ (tables : List CandidateTable) (tableIndex allTablesLen : Nat) (s : SheetOutput),
      s ∈ tablesLoop opts pageNum tablesCount tables tableIndex allTablesLen →
      ∃ ti al, s.sheetName = sheetNameFor opts pageNum tablesCount ti al := by
  intro tables
  induction tables with
  | nil =>
    intro i a s hs
    simp [tablesLoop] at hs
  | cons t rest ih =>
    intro i a s hs
    rw [tablesLoop] at hs
    by_cases hv : isEmptyCellGrid (reconstructCells t.rows t.columns) = true
    · rw [if_pos hv] at hs
      exact ih _ _ s hs
    · rw [if_neg hv] at hs
      rcases List.mem_cons.mp hs with rfl | hs
      · exact ⟨i, a, rfl⟩
      · exact ih _ _ s hs

lemma toDigitsCore_length_le :
    ∀ (fuel n : Nat) (ds : List Char) (k : Nat), n < 10^k → 1 ≤ k →
      (Nat.toDigitsCore 10 fuel n ds).length ≤ k + ds.length := by
  intro fuel
  induction fuel with
  | zero =>
    intro n ds k _ _
    rw [Nat.toDigitsCore]
    omega
  | succ f ih =>
    intro n ds k hn hk
    rw [Nat.toDigitsCore]
    by_cases h0 : n / 10 = 0
    · rw [if_pos h0]
      simp only [List.length_cons]
      omega
    · rw [if_neg h0]
      have h10 : 10 ≤ n := by
        by_contra hlt
        exact h0 (Nat.div_eq_of_lt (by omega))
      have hk2 : 2 ≤ k := by
        by_contra hlt
        have hk1 : k = 1 := by omega
        subst hk1
        simp at hn
        omega
      have hdiv : n / 10 < 10^(k-1) := by
        rw [Nat.div_lt_iff_lt_mul (by norm_num)]
        calc n < 10^k := hn
          _ = 10^(k-1) * 10 := by
            rw [← pow_succ]
            congr 1
            omega
      have h := ih (n/10) (Nat.digitChar (n % 10) :: ds) (k-1) hdiv (by omega)
      simp only [List.length_cons] at h
      omega

lemma natRepr_length_le {n k : Nat} (hn : n < 10^k) (hk : 1 ≤ k) :
    (Nat.repr n).length ≤ k := by
  unfold Nat.repr Nat.toDigits
  have h := toDigitsCore_length_le (n+1) n [] k hn hk
  simpa using h

/-- C5: the sheet name for page 12, table 2 of 3, with includePageNumbers
and detectMultipleTables on, is exactly "P12-T2"; every table-branch name
is truncated by `substring(0, 31)`; and every emitted sheet name has at
most 31 characters — the untruncated fallback names `Page N` / `Sheet N`
stay at 26/27 characters or fewer for every page number and sheet count
the source can hold.  The hypotheses bound the counters to below 10^21,
the range on which `Nat.repr` coincides with JS number rendering (plain
decimal); the JS page counter itself can never pass 2^53, far below. -/
theorem sheetNames_spec :
    (∀ allTablesLen, sheetNameFor ⟨true, true, true⟩ 12 3 1 allTablesLen = "P12-T2") ∧
    (∀ opts pageNum tablesCount tableIndex allTablesLen,
      (sheetNameFor opts pageNum tablesCount tableIndex allTablesLen).length ≤
        CONFIG.maxSheetNameLength) ∧
    (∀ textItems pageNum opts allTablesLen,
      pageNum < 10^21 → allTablesLen + 1 < 10^21 →
      ∀ s ∈ processPage textItems pageNum opts allTablesLen,
        s.sheetName.length ≤ CONFIG.maxSheetNameLength) := by
  refine ⟨?_, ?_, ?_⟩
  · intro a
    rfl
  · intro opts pageNum tablesCount tableIndex allTablesLen
    exact jsSubstring_length_le _ _
  · intro textItems pageNum opts allTablesLen hpage htables s hs
    unfold processPage at hs
    by_cases he : textItems.length = 0
    · rw [if_pos he] at hs
      simp at hs
    · rw [if_neg he] at hs
      by_cases ht : (detectTablesInPage textItems).length = 0
      · rw [if_pos ht] at hs
        rw [List.mem_singleton] at hs
        subst hs
        have hrepr1 : (Nat.repr pageNum).length ≤ 21 := natRepr_length_le hpage (by norm_num)
        have hrepr2 : (Nat.repr (allTablesLen + 1)).length ≤ 21 :=
          natRepr_length_le htables (by norm_num)
        have h5 : ("Page ").length = 5 := rfl
        have h6 : ("Sheet ").length = 6 := rfl
        have hc : CONFIG.maxSheetNameLength = 31 := rfl
        show (if opts.includePageNumbers = true then "Page " ++ Nat.repr pageNum
          else "Sheet " ++ Nat.repr (allTablesLen + 1)).length ≤ CONFIG.maxSheetNameLength
        by_cases hip : opts.includePageNumbers = true
        · rw [if_pos hip, String.length_append]
          omega
        · rw [if_neg hip, String.length_append]
          omega
      · rw [if_neg ht] at hs
        rcases mem_tablesLoop_sheetName opts pageNum _ _ _ _ s hs with ⟨ti, al, hname⟩
        rw [hname]
        exact jsSubstring_length_le _ _

/-- C5 witness: the fallback sheet "Page 3" of a one-fragment page 3
is within the 31-character limit. -/
theorem sheetNames_spec_witness :
    ({ data := [["hello"]], sheetName := "Page 3", page := 3, confidence := none } :
      SheetOutput).sheetName.length ≤ CONFIG.maxSheetNameLength :=
  sheetNames_spec.2.2 [⟨"hello", 0, 0, 10, 12, "f"⟩] 3 ⟨true, true, true⟩ 0
    (by norm_num) (by norm_num) _
    (by
      have hno : detectTablesInPage [⟨"hello", 0, 0, 10, 12, "f"⟩] = [] := by
        norm_num [detectTablesInPage, groupByY, sortByLe, insertByLe, groupLoop,
          extractXPositions, sortInt, clusterXPositions, clusterLoop, listAvg, jsRound,
          validateTableGrid, CONFIG, detectMultipleTables, detectMultipleTablesLoop]
      unfold processPage
      rw [if_neg (by decide)]
      simp only [hno]
      rw [if_pos (show ([] : List CandidateTable).length = 0 from rfl)]
      decide)
